import Mathlib

/-!
Verification development for the Reddit CLI tool (`reddit_cli.py`).

The development shallow-embeds the retry/backoff executor
(`RedditCLI._execute_with_retry`, lines 101-138), the error taxonomy the
specification assigns to its exception branches, the comment-monitoring
polling loop (`RedditCLI.monitor_post`, lines 970-1009), the configuration
bootstrap (`RedditCLI.load_config` / `create_config_template`, lines 27-56
and 140-151) and the twelve list-returning wrapper methods
(`get_subreddit_flairs`, `get_hot_posts`, ..., `get_friends`).

Modelling conventions:
* a Python exception value is a `PyError`: the constructor records the
  dynamic exception type that the `except` clauses dispatch on
  (`praw.exceptions.RedditAPIException`, `praw.exceptions.ClientException`,
  or any other `Exception`), and the payload records `str(e)`;
* a wrapped operation is a function `Nat → Except PyError α`: `op k` is
  the outcome of the (k+1)-st invocation of `func` (success value or
  raised exception);
* side effects of the executor (calls made, `time.sleep` durations) are
  returned as an explicit trace in a `RunResult`;
* durations are naturals: the code only ever uses integer delays
  (default 5, doubled by `delay *= 2`).
-/

namespace RedditCLI

/-- Containment of `p` as a contiguous sublist of `l`: the Python
substring operator `p in s` on the character lists. -/
def charListContains (l p : List Char) : Bool :=
  l.tails.any (fun t => p.isPrefixOf t)

/-- Python's `pat in s` substring test. -/
def strContains (s pat : String) : Bool :=
  charListContains s.toList pat.toList

/-- Python's `pat in s.lower()` for an all-lowercase pattern: the
messages and markers involved are ASCII, where Python's `str.lower`
lowers characters exactly as `Char.toLower` does. -/
def strContainsLower (s pat : String) : Bool :=
  charListContains (s.toList.map Char.toLower) pat.toList

/-- A Python exception as seen by the `except` clauses of
`_execute_with_retry`: the constructor is the dynamic type tested by the
`except` dispatch, the field is `str(e)`. -/
inductive PyError where
  | redditAPIException (msg : String)
  | clientException (msg : String)
  | otherException (msg : String)
deriving DecidableEq

/-- `str(e)` of a `PyError`. -/
def PyError.msg : PyError → String
  | .redditAPIException m => m
  | .clientException m => m
  | .otherException m => m

/-- The spec's error taxonomy (spec section 4.2). -/
inductive ErrorClassification where
  | RateLimited
  | Unauthorized
  | ClientError
  | TransientError
deriving DecidableEq

/-- The classification `_execute_with_retry` (lines 107-136) effectively
computes, read off its branch structure and named with the spec's
taxonomy:
* `except RedditAPIException` (line 107): message containing
  `"RATE_LIMIT"` (case-sensitively, line 108) or `"429"` is the
  rate-limit branch → `RateLimited`; any other `RedditAPIException`
  is the immediately-terminal "Reddit API error" branch (lines 117-119),
  which the spec taxonomy files under `ClientError` (an error raised by
  the API gateway's own error type);
* `except ClientException` (line 121): message containing `"401"` or
  containing `"unauthorized"` case-insensitively (line 122) →
  `Unauthorized`; any other `ClientException` is the "Client error"
  branch (lines 125-127) → `ClientError`;
* `except Exception` (line 129): everything else → `TransientError`. -/
def classify : PyError → ErrorClassification
  | .redditAPIException m =>
      if strContains m "RATE_LIMIT" || strContains m "429" then .RateLimited
      else .ClientError
  | .clientException m =>
      if strContains m "401" || strContainsLower m "unauthorized" then .Unauthorized
      else .ClientError
  | .otherException _ => .TransientError

/-- What the executor hands back to its caller.  The Python function
returns the operation's value on success and `None` on every failure
path; `failure c` records which classification's terminal branch
produced the `return None`, and `exhausted` is the fall-through
`return None` after the loop (line 138, reachable only when
`max_retries = 0` makes `range(max_retries)` empty). -/
inductive ExecResult (α : Type) where
  | success (v : α)
  | failure (c : ErrorClassification)
  | exhausted
deriving DecidableEq

/-- Result and effect trace of one run of `_execute_with_retry`:
the returned value, how many times `func` was invoked, and the
`time.sleep` durations in order. -/
structure RunResult (α : Type) where
  result : ExecResult α
  invocations : Nat
  sleeps : List Nat
deriving DecidableEq

/-- The loop `for attempt in range(max_retries)` of `_execute_with_retry`
(lines 103-136), recursing on `remaining = max_retries - attempt` (so the
Python guard `attempt < max_retries - 1`, tested after this iteration's
failure, is `0 < remaining` on the pattern `remaining + 1`):
* success: return the value (line 105);
* `RedditAPIException` with `"RATE_LIMIT"` or `"429"` in the message:
  sleep `delay`, double it and retry if attempts remain (lines 110-113),
  else terminal rate-limit failure (lines 114-116);
* any other `RedditAPIException`: immediately terminal (lines 117-119);
* `ClientException` with `"401"`/`"unauthorized"`: immediately terminal
  authentication failure (lines 122-124);
* any other `ClientException`: immediately terminal (lines 125-127);
* any other exception: sleep `delay`, double it and retry if attempts
  remain, else terminal (lines 129-136). -/
def retryGo (op : Nat → Except PyError α) : Nat → Nat → Nat → RunResult α
  | _attempt, _delay, 0 => { result := .exhausted, invocations := 0, sleeps := [] }
  | attempt, delay, remaining + 1 =>
    match op attempt with
    | .ok v => { result := .success v, invocations := 1, sleeps := [] }
    | .error (.redditAPIException m) =>
        if strContains m "RATE_LIMIT" || strContains m "429" then
          if 0 < remaining then
            let r := retryGo op (attempt + 1) (delay * 2) remaining
            { result := r.result, invocations := r.invocations + 1, sleeps := delay :: r.sleeps }
          else { result := .failure .RateLimited, invocations := 1, sleeps := [] }
        else { result := .failure .ClientError, invocations := 1, sleeps := [] }
    | .error (.clientException m) =>
        if strContains m "401" || strContainsLower m "unauthorized" then
          { result := .failure .Unauthorized, invocations := 1, sleeps := [] }
        else { result := .failure .ClientError, invocations := 1, sleeps := [] }
    | .error (.otherException _) =>
        if 0 < remaining then
          let r := retryGo op (attempt + 1) (delay * 2) remaining
          { result := r.result, invocations := r.invocations + 1, sleeps := delay :: r.sleeps }
        else { result := .failure .TransientError, invocations := 1, sleeps := [] }

/-- `RedditCLI._execute_with_retry(func, max_retries, delay)`
(lines 101-138); the Python defaults are `max_retries=3, delay=5`. -/
def executeWithRetry (op : Nat → Except PyError α) (maxRetries delay : Nat) : RunResult α :=
  retryGo op 0 delay maxRetries

/-- An error on which the executor's branch retries: the rate-limit
branch of `except RedditAPIException` or the generic `except Exception`
branch — exactly the errors classified `RateLimited` or
`TransientError`. -/
def retryableErr (e : PyError) : Prop :=
  classify e = .RateLimited ∨ classify e = .TransientError

/-- A comment as `monitor_post` sees it: `comment.id` is the
deduplication key (line 987); `body` stands for the rest of the
`response_data` dict built on lines 989-995. -/
structure RComment where
  id : String
  body : String
deriving DecidableEq

/-- The inner `for comment in submission.comments` loop of
`monitor_post` (lines 986-997): returns the updated `seen_comment_ids`
and the `new_responses` of this check, in comment order.  `seen` is
updated before the append (line 988), so a duplicate id inside a single
comment list is also skipped. -/
def processComments (seen : List String) : List RComment → List String × List RComment
  | [] => (seen, [])
  | c :: cs =>
    if c.id ∈ seen then processComments seen cs
    else
      let p := processComments (c.id :: seen) cs
      (p.1, c :: p.2)

/-- Result and sleep trace of the monitoring loop. -/
structure MonitorTrace where
  responses : List RComment
  sleeps : List Nat
deriving DecidableEq

/-- The loop `for check in range(max_checks)` of `monitor_post`
(lines 979-1007), recursing on `remaining = max_checks - check`; the
guard `check < max_checks - 1` before `time.sleep(check_interval)`
(line 1006) is `0 < remaining` on the pattern `remaining + 1`.
`reads check` is `submission.comments` as observed on the given check. -/
def monitorGo (reads : Nat → List RComment) (interval : Nat) :
    Nat → List String → Nat → MonitorTrace
  | _check, _seen, 0 => { responses := [], sleeps := [] }
  | check, seen, remaining + 1 =>
    let p := processComments seen (reads check)
    let rest := monitorGo reads interval (check + 1) p.1 remaining
    { responses := p.2 ++ rest.responses,
      sleeps := (if 0 < remaining then [interval] else []) ++ rest.sleeps }

/-- `RedditCLI.monitor_post(submission, check_interval, max_checks)`
(lines 970-1009): starts with empty `all_responses` and
`seen_comment_ids` and returns the concatenation of the per-check
`new_responses` lists. -/
def monitor_post (reads : Nat → List RComment) (check_interval max_checks : Nat) :
    MonitorTrace :=
  monitorGo reads check_interval 0 [] max_checks

/-- `seen_comment_ids` after `n` completed checks of the monitoring loop
started from the empty set. -/
def seenAfter (reads : Nat → List RComment) : Nat → List String
  | 0 => []
  | n + 1 => (processComments (seenAfter reads n) (reads n)).1

/-- One observable startup effect of `load_config` when the
configuration file is absent (lines 29-33 and 140-151).  `apiOperation`
stands for any call against the remote API; it can only occur inside the
connect sequence of the file-present branch. -/
inductive StartupEffect where
  | writeFile (path : String) (content : List (String × String))
  | printMsg (m : String)
  | exitProcess (code : Nat)
  | apiOperation (name : String)
deriving DecidableEq

/-- The placeholder template of `create_config_template`
(lines 142-148). -/
def configTemplate : List (String × String) :=
  [("client_id", "your_client_id_here"),
   ("client_secret", "your_client_secret_here"),
   ("username", "your_reddit_username"),
   ("password", "your_reddit_password"),
   ("user_agent", "RedditCLI/1.0 by your_username")]

/-- `RedditCLI.create_config_template` (lines 140-151): writes the
template to the configuration file. -/
def create_config_template (configFile : String) : List StartupEffect :=
  [.writeFile configFile configTemplate]

/-- The startup decision of `RedditCLI.load_config` (lines 27-56), as
the sequence of effects it performs.  `configExists` is
`os.path.exists(self.config_file)` (line 29); `connectEffects` abstracts
the file-present branch (lines 35-56: parse the file, build the praw
session, sleep, test the connection — the only place API operations can
happen).  When the file is absent, the code runs
`create_config_template`, prints two instructional lines and calls
`sys.exit(1)` (lines 30-33). -/
def load_config (configFile : String) (configExists : Bool)
    (connectEffects : List StartupEffect) : List StartupEffect :=
  if configExists then connectEffects
  else
    create_config_template configFile ++
    [.printMsg ("Configuration template created at " ++ configFile),
     .printMsg "Please fill in your Reddit API credentials and run again.",
     .exitProcess 1]

/-- `True` exactly on the `apiOperation` effect. -/
def isApiOp : StartupEffect → Bool
  | .apiOperation _ => true
  | _ => false

/-- Python's `x or []` applied to what `_execute_with_retry` returned:
`None` (any failure) becomes `[]`, a list result is returned as is (an
empty success list is falsy in Python, but `[] or []` is again `[]`). -/
def orEmptyList (r : ExecResult (List α)) : List α :=
  match r with
  | .success v => v
  | .failure _ => []
  | .exhausted => []

/-- `get_subreddit_flairs` (lines 189-194):
`_execute_with_retry(impl, ...) or []` at the default policy
`max_retries=3, delay=5`. -/
def get_subreddit_flairs (op : Nat → Except PyError (List α)) : List α :=
  orEmptyList (executeWithRetry op 3 5).result

/-- `get_hot_posts` (lines 320-325): same `or []` wrapper. -/
def get_hot_posts (op : Nat → Except PyError (List α)) : List α :=
  orEmptyList (executeWithRetry op 3 5).result

/-- `search_subreddits` (lines 350-355): same `or []` wrapper. -/
def search_subreddits (op : Nat → Except PyError (List α)) : List α :=
  orEmptyList (executeWithRetry op 3 5).result

/-- `get_trending_subreddits` (lines 450-455): same `or []` wrapper. -/
def get_trending_subreddits (op : Nat → Except PyError (List α)) : List α :=
  orEmptyList (executeWithRetry op 3 5).result

/-- `get_subreddit_moderators` (lines 480-485): same `or []` wrapper. -/
def get_subreddit_moderators (op : Nat → Except PyError (List α)) : List α :=
  orEmptyList (executeWithRetry op 3 5).result

/-- `get_user_posts` (lines 613-618): same `or []` wrapper. -/
def get_user_posts (op : Nat → Except PyError (List α)) : List α :=
  orEmptyList (executeWithRetry op 3 5).result

/-- `get_user_comments` (lines 643-648): same `or []` wrapper. -/
def get_user_comments (op : Nat → Except PyError (List α)) : List α :=
  orEmptyList (executeWithRetry op 3 5).result

/-- `get_saved_posts` (lines 710-715): same `or []` wrapper. -/
def get_saved_posts (op : Nat → Except PyError (List α)) : List α :=
  orEmptyList (executeWithRetry op 3 5).result

/-- `get_inbox` (lines 757-762): same `or []` wrapper. -/
def get_inbox (op : Nat → Except PyError (List α)) : List α :=
  orEmptyList (executeWithRetry op 3 5).result

/-- `search_posts` (lines 785-790): same `or []` wrapper. -/
def search_posts (op : Nat → Except PyError (List α)) : List α :=
  orEmptyList (executeWithRetry op 3 5).result

/-- `search_comments` (lines 820-825): same `or []` wrapper. -/
def search_comments (op : Nat → Except PyError (List α)) : List α :=
  orEmptyList (executeWithRetry op 3 5).result

/-- `get_friends` (lines 947-951): same `or []` wrapper. -/
def get_friends (op : Nat → Except PyError (List α)) : List α :=
  orEmptyList (executeWithRetry op 3 5).result

/-- The classifier the specification describes (section 4.2 and claim
C2's wording): case-insensitive substring containment of the markers,
checked in priority order over the message alone, falling back on
whether the error is of the API gateway's own error type.  This
definition follows the spec's words, to be compared with `classify`,
which follows the source. -/
def specClassify (e : PyError) : ErrorClassification :=
  let m := e.msg
  if strContainsLower m "rate_limit" || strContainsLower m "429" then .RateLimited
  else if strContainsLower m "401" || strContainsLower m "unauthorized" then .Unauthorized
  else
    match e with
    | .redditAPIException _ => .ClientError
    | .clientException _ => .ClientError
    | .otherException _ => .TransientError

/-- Scenario A's operation: every invocation raises a Reddit API
exception whose message contains "429". -/
def opScenarioA : Nat → Except PyError Nat :=
  fun _ => .error (.redditAPIException "received 429 response")

/-- Scenario B's operation: the first (and every) invocation raises a
client exception whose message contains "401 unauthorized". -/
def opScenarioB : Nat → Except PyError Nat :=
  fun _ => .error (.clientException "401 unauthorized")

/-- Scenario C's operation: a transient error on the first call, the
success value 42 on the second. -/
def opScenarioC : Nat → Except PyError Nat :=
  fun k => if k = 0 then .error (.otherException "connection reset by peer") else .ok 42

/-! Helper lemmas about the executor. -/

/-- A successful invocation returns immediately: one call, no sleep. -/
theorem retryGo_ok (op : Nat → Except PyError α) (attempt delay remaining : Nat) (v : α)
    (h : op attempt = .ok v) :
    retryGo op attempt delay (remaining + 1) = ⟨.success v, 1, []⟩ := by
  simp [retryGo, h]

/-- Every error is either retried-on (rate limit, transient) or
immediately terminal (unauthorized, client error). -/
theorem retryable_or_fatal (e : PyError) :
    retryableErr e ∨ (classify e = .Unauthorized ∨ classify e = .ClientError) := by
  unfold retryableErr
  cases hcl : classify e <;> simp

/-- A retryable failure with attempts remaining: sleep `delay`, double
it, move to the next attempt, and count this invocation. -/
theorem retryGo_err_retry (op : Nat → Except PyError α) (attempt delay remaining : Nat)
    (e : PyError) (hrem : 0 < remaining) (h : op attempt = .error e) (hr : retryableErr e) :
    retryGo op attempt delay (remaining + 1) =
      { result := (retryGo op (attempt + 1) (delay * 2) remaining).result,
        invocations := (retryGo op (attempt + 1) (delay * 2) remaining).invocations + 1,
        sleeps := delay :: (retryGo op (attempt + 1) (delay * 2) remaining).sleeps } := by
  cases e with
  | redditAPIException m =>
    by_cases hm : (strContains m "RATE_LIMIT" || strContains m "429") = true
    · simp [retryGo, h, hm, hrem]
    · exfalso
      simp [retryableErr, classify, hm] at hr
  | clientException m =>
    exfalso
    simp only [retryableErr, classify] at hr
    split_ifs at hr <;> simp_all
  | otherException m =>
    simp [retryGo, h, hrem]

/-- Any error on the last attempt is terminal with the classification of
the branch that absorbed it. -/
theorem retryGo_err_one (op : Nat → Except PyError α) (attempt delay : Nat) (e : PyError)
    (h : op attempt = .error e) :
    retryGo op attempt delay 1 = ⟨.failure (classify e), 1, []⟩ := by
  cases e with
  | redditAPIException m =>
    by_cases hm : (strContains m "RATE_LIMIT" || strContains m "429") = true <;>
      simp [retryGo, h, classify, hm]
  | clientException m =>
    by_cases hm : (strContains m "401" || strContainsLower m "unauthorized") = true <;>
      simp [retryGo, h, classify, hm]
  | otherException m =>
    simp [retryGo, h, classify]

/-- An unauthorized or client error is terminal at once, regardless of
attempts remaining. -/
theorem retryGo_err_fatal (op : Nat → Except PyError α) (attempt delay remaining : Nat)
    (e : PyError) (h : op attempt = .error e)
    (hc : classify e = .Unauthorized ∨ classify e = .ClientError) :
    retryGo op attempt delay (remaining + 1) = ⟨.failure (classify e), 1, []⟩ := by
  cases e with
  | redditAPIException m =>
    by_cases hm : (strContains m "RATE_LIMIT" || strContains m "429") = true
    · exfalso; simp [classify, hm] at hc
    · simp [retryGo, h, classify, hm]
  | clientException m =>
    by_cases hm : (strContains m "401" || strContainsLower m "unauthorized") = true <;>
      simp [retryGo, h, classify, hm]
  | otherException m =>
    exfalso; simp [classify] at hc

/-- Consing the current delay onto the doubled-delay geometric sleep
list gives the geometric sleep list one step longer. -/
theorem geomSleeps_cons (delay j : Nat) :
    delay :: (List.range j).map (fun i => delay * 2 * 2 ^ i) =
      (List.range (j + 1)).map (fun i => delay * 2 ^ i) := by
  rw [List.range_succ_eq_map, List.map_cons, List.map_map]
  simp only [List.cons.injEq]
  refine ⟨by ring, List.map_congr_left (fun i _ => ?_)⟩
  simp only [Function.comp_apply, Nat.succ_eq_add_one, pow_succ]
  ring

/-- Master lemma: `j` retryable failures in a row step the loop `j`
attempts forward, sleeping the geometric delays and counting `j`
invocations, provided attempts remain. -/
theorem retryGo_retryable_prefix (op : Nat → Except PyError α) :
    ∀ (j attempt delay remaining : Nat), j < remaining →
    (∀ i, i < j → ∃ e, op (attempt + i) = .error e ∧ retryableErr e) →
    retryGo op attempt delay remaining =
      { result := (retryGo op (attempt + j) (delay * 2 ^ j) (remaining - j)).result,
        invocations := (retryGo op (attempt + j) (delay * 2 ^ j) (remaining - j)).invocations + j,
        sleeps := (List.range j).map (fun i => delay * 2 ^ i) ++
          (retryGo op (attempt + j) (delay * 2 ^ j) (remaining - j)).sleeps } := by
  intro j
  induction j with
  | zero => intro attempt delay remaining _ _; simp
  | succ j ih =>
    intro attempt delay remaining hj hfail
    obtain ⟨e, he, hre⟩ := hfail 0 (Nat.succ_pos j)
    rw [Nat.add_zero] at he
    obtain ⟨r, rfl⟩ : ∃ r, remaining = r + 1 := ⟨remaining - 1, by omega⟩
    have h0r : 0 < r := by omega
    rw [retryGo_err_retry op attempt delay r e h0r he hre]
    have hih := ih (attempt + 1) (delay * 2) r (by omega)
      (fun i hi => by
        have h := hfail (i + 1) (by omega)
        have : attempt + 1 + i = attempt + (i + 1) := by omega
        rw [this]
        exact h)
    rw [hih]
    have h1 : attempt + 1 + j = attempt + (j + 1) := by omega
    have h2 : delay * 2 * 2 ^ j = delay * 2 ^ (j + 1) := by ring
    have h3 : r - j = r + 1 - (j + 1) := by omega
    rw [h1, h2, h3]
    simp only [RunResult.mk.injEq]
    refine ⟨by trivial, by omega, ?_⟩
    rw [← List.cons_append, geomSleeps_cons]

/-- Shape of every possible outcome of the loop: a success value coming
from an actual invocation, a terminal failure, or the empty-range
fall-through. -/
theorem retryGo_result_cases (op : Nat → Except PyError α) :
    ∀ (remaining attempt delay : Nat),
      (∃ k v, attempt ≤ k ∧ k < attempt + remaining ∧ op k = .ok v ∧
        (retryGo op attempt delay remaining).result = .success v) ∨
      (∃ c, (retryGo op attempt delay remaining).result = .failure c) ∨
      (retryGo op attempt delay remaining).result = .exhausted := by
  intro remaining
  induction remaining with
  | zero => intro attempt delay; right; right; simp [retryGo]
  | succ n ih =>
    intro attempt delay
    cases hop : op attempt with
    | ok v =>
      left
      exact ⟨attempt, v, le_rfl, by omega, hop,
        by rw [retryGo_ok op attempt delay n v hop]⟩
    | error e =>
      rcases retryable_or_fatal e with hre | hfat
      · rcases Nat.eq_zero_or_pos n with rfl | hn
        · right; left
          refine ⟨classify e, ?_⟩
          have h1 := retryGo_err_one op attempt delay e hop
          simpa using congrArg RunResult.result h1
        · have hstep := retryGo_err_retry op attempt delay n e hn hop hre
          rcases ih (attempt + 1) (delay * 2) with ⟨k, v, h1, h2, h3, h4⟩ | ⟨c, hc⟩ | hex
          · left
            exact ⟨k, v, by omega, by omega, h3, by rw [hstep]; exact h4⟩
          · right; left; exact ⟨c, by rw [hstep]; exact hc⟩
          · right; right; rw [hstep]; exact hex
      · right; left
        refine ⟨classify e, ?_⟩
        have h1 := retryGo_err_fatal op attempt delay n e hop hfat
        simpa using congrArg RunResult.result h1

/-! Helper lemmas about the monitoring loop. -/

/-- What one pass over a comment list does: the new responses carry
pairwise-distinct ids, none previously seen, and the updated seen set is
the old one plus exactly the new ids. -/
theorem processComments_spec (cs : List RComment) :
    ∀ seen : List String,
      ((processComments seen cs).2.map RComment.id).Nodup ∧
      (∀ c ∈ (processComments seen cs).2, c.id ∉ seen) ∧
      (∀ x, x ∈ (processComments seen cs).1 ↔
        x ∈ seen ∨ x ∈ (processComments seen cs).2.map RComment.id) := by
  induction cs with
  | nil => intro seen; simp [processComments]
  | cons c cs ih =>
    intro seen
    by_cases h : c.id ∈ seen
    · simpa only [processComments, if_pos h] using
        ⟨(ih seen).1, (ih seen).2.1, (ih seen).2.2⟩
    · have hrec := ih (c.id :: seen)
      simp only [processComments, if_neg h]
      refine ⟨?_, ?_, ?_⟩
      · simp only [List.map_cons, List.nodup_cons]
        refine ⟨?_, hrec.1⟩
        intro hmem
        rcases List.mem_map.mp hmem with ⟨c', hc', hid⟩
        exact hrec.2.1 c' hc' (by rw [hid]; exact List.mem_cons_self _ _)
      · intro c' hc'
        rcases List.mem_cons.mp hc' with rfl | hc'
        · exact h
        · intro hmem
          exact hrec.2.1 c' hc' (List.mem_cons_of_mem _ hmem)
      · intro x
        rw [hrec.2.2 x]
        simp only [List.mem_cons, List.map_cons]
        tauto

/-- The seen set only grows during one pass. -/
theorem processComments_seen_subset (cs : List RComment) (seen : List String) :
    seen ⊆ (processComments seen cs).1 := by
  intro x hx
  exact ((processComments_spec cs seen).2.2 x).mpr (Or.inl hx)

/-- The responses collected by the monitoring loop from any starting
seen set have pairwise-distinct ids, none of them previously seen. -/
theorem monitorGo_responses_nodup (reads : Nat → List RComment) (interval : Nat) :
    ∀ (remaining check : Nat) (seen : List String),
      ((monitorGo reads interval check seen remaining).responses.map RComment.id).Nodup ∧
      (∀ c ∈ (monitorGo reads interval check seen remaining).responses, c.id ∉ seen) := by
  intro remaining
  induction remaining with
  | zero => intro check seen; simp [monitorGo]
  | succ n ih =>
    intro check seen
    have hpc := processComments_spec (reads check) seen
    have hih := ih (check + 1) (processComments seen (reads check)).1
    simp only [monitorGo]
    constructor
    · rw [List.map_append, List.nodup_append]
      refine ⟨hpc.1, hih.1, ?_⟩
      intro a ha hb
      rcases List.mem_map.mp hb with ⟨c, hc, rfl⟩
      exact hih.2 c hc ((hpc.2.2 c.id).mpr (Or.inr ha))
    · intro c hc
      rcases List.mem_append.mp hc with hc1 | hc2
      · exact hpc.2.1 c hc1
      · intro hmem
        exact hih.2 c hc2 ((hpc.2.2 c.id).mpr (Or.inl hmem))

/-- Scenario D's comments. -/
def commentA : RComment := ⟨"a1", "comment A"⟩

/-- Scenario D's comments. -/
def commentB : RComment := ⟨"b2", "comment B"⟩

/-- Scenario D's comments. -/
def commentC : RComment := ⟨"c3", "comment C"⟩

/-- Scenario D's read operation: the comment sets `{A}`, `{A,B}`,
`{A,B,C}` on the three successive checks. -/
def readsScenarioD : Nat → List RComment :=
  fun n =>
    if n = 0 then [commentA]
    else if n = 1 then [commentA, commentB]
    else [commentA, commentB, commentC]

/-! The claims. -/

/-- C1: for every operation whose every invocation fails with a
retryable error (classified `RateLimited` or `TransientError`) and
every policy with `max_retries = N > 1` and initial delay `d`, the
executor invokes the operation `N` times (hence at most `N`), and the
delay slept before the k-th retry is `d * 2^(k-1)` — the backoff
multiplier is the constant 2 of `delay *= 2`; the result is a terminal
failure of a retryable kind.  In particular Scenario A: an operation
always raising a Reddit API error containing "429", under
`max_retries = 3, delay = 1`, is invoked 3 times with sleeps 1 then 2
between the invocations and ends in a terminal `RateLimited` failure. -/
theorem claim_C1 {α : Type} (op : Nat → Except PyError α) (N d : Nat) (hN : 1 < N)
    (hfail : ∀ k, k < N → ∃ e, op k = Except.error e ∧ retryableErr e) :
    (executeWithRetry op N d).invocations = N ∧
    (executeWithRetry op N d).sleeps = (List.range (N - 1)).map (fun k => d * 2 ^ k) ∧
    (∃ c, (executeWithRetry op N d).result = .failure c ∧
      (c = .RateLimited ∨ c = .TransientError)) ∧
    executeWithRetry opScenarioA 3 1 = ⟨.failure .RateLimited, 3, [1, 2]⟩ := by
  obtain ⟨e, he, hre⟩ := hfail (N - 1) (by omega)
  have hpre := retryGo_retryable_prefix op (N - 1) 0 d N (by omega)
    (fun i hi => by simpa using hfail i (by omega))
  have hcore : retryGo op (0 + (N - 1)) (d * 2 ^ (N - 1)) (N - (N - 1)) =
      ⟨.failure (classify e), 1, []⟩ := by
    have h1 : 0 + (N - 1) = N - 1 := by omega
    have h2 : N - (N - 1) = 1 := by omega
    rw [h1, h2]
    exact retryGo_err_one op (N - 1) (d * 2 ^ (N - 1)) e he
  have hmain : executeWithRetry op N d =
      ⟨.failure (classify e), 1 + (N - 1),
        (List.range (N - 1)).map (fun k => d * 2 ^ k) ++ []⟩ := by
    unfold executeWithRetry
    rw [hpre, hcore]
  rw [hmain]
  refine ⟨?_, ?_, ⟨classify e, rfl, hre⟩, ?_⟩
  · show 1 + (N - 1) = N
    omega
  · show (List.range (N - 1)).map (fun k => d * 2 ^ k) ++ [] = _
    simp
  · decide

/-- Witness for C1 at Scenario A's operation and policy. -/
theorem claim_C1_witness :
    (executeWithRetry opScenarioA 3 1).invocations = 3 ∧
    (executeWithRetry opScenarioA 3 1).sleeps = (List.range 2).map (fun k => 1 * 2 ^ k) ∧
    (∃ c, (executeWithRetry opScenarioA 3 1).result = .failure c ∧
      (c = .RateLimited ∨ c = .TransientError)) ∧
    executeWithRetry opScenarioA 3 1 = ⟨.failure .RateLimited, 3, [1, 2]⟩ :=
  claim_C1 opScenarioA 3 1 (by decide)
    (fun k _ => ⟨.redditAPIException "received 429 response", rfl, Or.inl (by decide)⟩)

/-- C2 as stated is false on the code: a `ClientException` whose message
contains "429" is classified `ClientError` by the code's type-first
dispatch, while the claimed priority-ordered substring classifier makes
it `RateLimited`. -/
theorem claim_C2_counterexample :
    classify (.clientException "HTTP 429") ≠ specClassify (.clientException "HTTP 429") := by
  decide

/-- C2 (amended): classification dispatches on the error's exception
type before any substring check — a Reddit API exception is
`RateLimited` iff its message contains "RATE_LIMIT" (case-sensitively)
or "429" and is otherwise `ClientError`; a client exception is
`Unauthorized` iff its message contains "401" or "unauthorized"
case-insensitively and is otherwise `ClientError`; any other error is
`TransientError` — and this `classify` is exactly the terminal failure
kind the executor reports for an operation that always raises the
error. -/
theorem claim_C2 {α : Type} (e : PyError) (N d : Nat) (hN : 1 ≤ N) :
    (executeWithRetry (fun _ => (Except.error e : Except PyError α)) N d).result =
      .failure (classify e) := by
  obtain ⟨n, rfl⟩ : ∃ n, N = n + 1 := ⟨N - 1, by omega⟩
  rcases retryable_or_fatal e with hre | hfat
  · have hpre := retryGo_retryable_prefix (fun _ => (Except.error e : Except PyError α))
      n 0 d (n + 1) (by omega) (fun i _ => ⟨e, rfl, hre⟩)
    show (retryGo (fun _ => (Except.error e : Except PyError α)) 0 d (n + 1)).result = _
    rw [hpre]
    have h2 : n + 1 - n = 1 := by omega
    rw [h2]
    rw [retryGo_err_one (fun _ => (Except.error e : Except PyError α)) (0 + n) (d * 2 ^ n) e rfl]
  · show (retryGo (fun _ => (Except.error e : Except PyError α)) 0 d (n + 1)).result = _
    rw [retryGo_err_fatal (fun _ => (Except.error e : Except PyError α)) 0 d n e rfl hfat]

/-- Witness for the amended C2 at a concrete error and policy. -/
theorem claim_C2_witness :
    (executeWithRetry
        (fun _ => (Except.error (PyError.redditAPIException "boom") : Except PyError Nat))
        1 0).result =
      .failure (classify (PyError.redditAPIException "boom")) :=
  claim_C2 (α := Nat) (PyError.redditAPIException "boom") 1 0 (by decide)

/-- C3: an operation whose first invocation fails with an error
classified `Unauthorized` or `ClientError` is invoked exactly once
under every policy with `max_retries ≥ 1`, with a terminal failure of
that kind and no sleep; in particular Scenario B: a client exception
containing "401 unauthorized" on the first call gives one invocation,
terminal kind `Unauthorized` and no delay. -/
theorem claim_C3 {α : Type} (op : Nat → Except PyError α) (N d : Nat) (e : PyError)
    (hN : 1 ≤ N) (h0 : op 0 = Except.error e)
    (hc : classify e = .Unauthorized ∨ classify e = .ClientError) :
    executeWithRetry op N d = ⟨.failure (classify e), 1, []⟩ ∧
    executeWithRetry opScenarioB 3 5 = ⟨.failure .Unauthorized, 1, []⟩ := by
  obtain ⟨n, rfl⟩ : ∃ n, N = n + 1 := ⟨N - 1, by omega⟩
  exact ⟨retryGo_err_fatal op 0 d n e h0 hc, by decide⟩

/-- Witness for C3 at Scenario B's operation. -/
theorem claim_C3_witness :
    executeWithRetry opScenarioB 3 5 =
      ⟨.failure (classify (PyError.clientException "401 unauthorized")), 1, []⟩ ∧
    executeWithRetry opScenarioB 3 5 = ⟨.failure .Unauthorized, 1, []⟩ :=
  claim_C3 opScenarioB 3 5 (PyError.clientException "401 unauthorized")
    (by decide) rfl (Or.inl (by decide))

/-- C4: the executor never re-raises an error of the wrapped operation:
for every operation and policy it returns either a success value
produced by one of the actual invocations, or the `None` sentinel of a
terminal failure (including the empty-loop fall-through). -/
theorem claim_C4 {α : Type} (op : Nat → Except PyError α) (N d : Nat) :
    (∃ k v, k < N ∧ op k = Except.ok v ∧
      (executeWithRetry op N d).result = .success v) ∨
    (∃ c, (executeWithRetry op N d).result = .failure c) ∨
    (executeWithRetry op N d).result = .exhausted := by
  rcases retryGo_result_cases op N 0 d with ⟨k, v, h1, h2, h3, h4⟩ | h | h
  · left
    exact ⟨k, v, by omega, h3, h4⟩
  · right; left; exact h
  · right; right; exact h

/-- C5: with `max_retries = 1`, any error on the single invocation is
immediately terminal: exactly one invocation, no sleep. -/
theorem claim_C5 {α : Type} (op : Nat → Except PyError α) (d : Nat) (e : PyError)
    (h0 : op 0 = Except.error e) :
    executeWithRetry op 1 d = ⟨.failure (classify e), 1, []⟩ :=
  retryGo_err_one op 0 d e h0

/-- Witness for C5 at a concrete transient error. -/
theorem claim_C5_witness :
    executeWithRetry
        (fun _ => (Except.error (PyError.otherException "socket timeout") : Except PyError Nat))
        1 7 =
      ⟨.failure (classify (PyError.otherException "socket timeout")), 1, []⟩ :=
  claim_C5 (fun _ => (Except.error (PyError.otherException "socket timeout") : Except PyError Nat))
    7 (PyError.otherException "socket timeout") rfl

/-- C6: an operation that fails retryably on its first `k - 1`
invocations and succeeds on the k-th, with `k ≤ max_retries`, makes the
executor return that success value with exactly `k` invocations and the
`k - 1` geometric sleeps; in particular Scenario C: transient error on
the 1st call, success (42) on the 2nd, `max_retries = 5`, delay 5 →
2 invocations, one sleep of 5, final result the success value. -/
theorem claim_C6 {α : Type} (op : Nat → Except PyError α) (N d k : Nat) (v : α)
    (hk1 : 1 ≤ k) (hkN : k ≤ N)
    (hfail : ∀ j, j < k - 1 → ∃ e, op j = Except.error e ∧ retryableErr e)
    (hok : op (k - 1) = Except.ok v) :
    executeWithRetry op N d =
      ⟨.success v, k, (List.range (k - 1)).map (fun i => d * 2 ^ i)⟩ ∧
    executeWithRetry opScenarioC 5 5 = ⟨.success 42, 2, [5]⟩ := by
  refine ⟨?_, by decide⟩
  have hpre := retryGo_retryable_prefix op (k - 1) 0 d N (by omega)
    (fun i hi => by simpa using hfail i hi)
  show retryGo op 0 d N = _
  rw [hpre]
  have h1 : 0 + (k - 1) = k - 1 := by omega
  obtain ⟨m, hm⟩ : ∃ m, N - (k - 1) = m + 1 := ⟨N - (k - 1) - 1, by omega⟩
  rw [h1, hm]
  rw [retryGo_ok op (k - 1) (d * 2 ^ (k - 1)) m v hok]
  have hk2 : 1 + (k - 1) = k := by omega
  simp [hk2]

/-- Witness for C6 at Scenario C's operation and policy. -/
theorem claim_C6_witness :
    executeWithRetry opScenarioC 5 5 =
      ⟨.success 42, 2, (List.range 1).map (fun i => 5 * 2 ^ i)⟩ ∧
    executeWithRetry opScenarioC 5 5 = ⟨.success 42, 2, [5]⟩ :=
  claim_C6 opScenarioC 5 5 2 42 (by decide) (by decide)
    (fun j hj => ⟨.otherException "connection reset by peer",
      by interval_cases j; rfl, Or.inr (by decide)⟩)
    rfl

/-- C7 (Scenario D): three checks at interval 0 over the comment sets
`{A}`, `{A,B}`, `{A,B,C}` collect exactly `[A, B, C]` in that order,
each comment exactly once. -/
theorem claim_C7 :
    monitor_post readsScenarioD 0 3 = ⟨[commentA, commentB, commentC], [0, 0]⟩ ∧
    (monitor_post readsScenarioD 0 3).responses.count commentA = 1 ∧
    (monitor_post readsScenarioD 0 3).responses.count commentB = 1 ∧
    (monitor_post readsScenarioD 0 3).responses.count commentC = 1 := by
  decide

/-- C8: when the configuration file is absent, startup writes the
placeholder template, prints the instructional messages, exits with the
non-zero status 1, and performs no API operation. -/
theorem claim_C8 (configFile : String) (connectEffects : List StartupEffect) :
    load_config configFile false connectEffects =
      [.writeFile configFile configTemplate,
       .printMsg ("Configuration template created at " ++ configFile),
       .printMsg "Please fill in your Reddit API credentials and run again.",
       .exitProcess 1] ∧
    (load_config configFile false connectEffects).all (fun s => !(isApiOp s)) = true ∧
    (∃ code, StartupEffect.exitProcess code ∈ load_config configFile false connectEffects ∧
      code ≠ 0) := by
  refine ⟨rfl, rfl, ⟨1, ?_, by decide⟩⟩
  simp [load_config, create_config_template]

/-- C9: for every number of checks, interval and read sequence
(duplicate ids within one check included), the monitor's collected
responses contain each comment id at most once, and the seen-id set
grows monotonically from check to check. -/
theorem claim_C9 (reads : Nat → List RComment) (interval maxChecks : Nat) :
    ((monitor_post reads interval maxChecks).responses.map RComment.id).Nodup ∧
    (∀ n, seenAfter reads n ⊆ seenAfter reads (n + 1)) := by
  refine ⟨(monitorGo_responses_nodup reads interval maxChecks 0 []).1, ?_⟩
  intro n
  exact processComments_seen_subset (reads n) (seenAfter reads n)

/-- C10: each of the twelve list-returning wrappers returns the empty
list — not `None` and not an exception — whenever the wrapped call
fails terminally, for every classification. -/
theorem claim_C10 {α : Type} (op : Nat → Except PyError (List α)) (c : ErrorClassification)
    (h : (executeWithRetry op 3 5).result = .failure c) :
    get_subreddit_flairs op = [] ∧ get_hot_posts op = [] ∧ search_subreddits op = [] ∧
    get_user_posts op = [] ∧ get_user_comments op = [] ∧ get_saved_posts op = [] ∧
    get_inbox op = [] ∧ search_posts op = [] ∧ search_comments op = [] ∧
    get_trending_subreddits op = [] ∧ get_subreddit_moderators op = [] ∧
    get_friends op = [] := by
  simp [get_subreddit_flairs, get_hot_posts, search_subreddits, get_user_posts,
    get_user_comments, get_saved_posts, get_inbox, search_posts, search_comments,
    get_trending_subreddits, get_subreddit_moderators, get_friends, orEmptyList, h]

/-- Operation for C10's witness: always raises a client exception whose
message carries no auth or rate-limit marker. -/
def opFatalList : Nat → Except PyError (List Nat) :=
  fun _ => .error (.clientException "invalid request parameters")

/-- Witness for C10 at a concrete always-failing operation. -/
theorem claim_C10_witness :
    (executeWithRetry opFatalList 3 5).result = .failure .ClientError ∧
    (get_subreddit_flairs opFatalList = [] ∧ get_hot_posts opFatalList = [] ∧
     search_subreddits opFatalList = [] ∧ get_user_posts opFatalList = [] ∧
     get_user_comments opFatalList = [] ∧ get_saved_posts opFatalList = [] ∧
     get_inbox opFatalList = [] ∧ search_posts opFatalList = [] ∧
     search_comments opFatalList = [] ∧ get_trending_subreddits opFatalList = [] ∧
     get_subreddit_moderators opFatalList = [] ∧ get_friends opFatalList = []) :=
  ⟨by decide, claim_C10 opFatalList .ClientError (by decide)⟩

end RedditCLI
